import Mathlib

set_option maxRecDepth 100000

/-!
A verification development for the ISA-Engine repository: a shallow
embedding in Lean 4 of the engine's byte-string utilities
(`engine/util.py`), segments and memory manager
(`engine/segment.py`, `engine/memory_manager.py`), register file and
operand evaluation (`engine/register.py`, `engine/operand.py`),
instruction decoder (`engine/instruction.py`) and the engine's
fetch-decode-execute machinery (`engine/engine.py`), together with
theorems about the embedded definitions.

Byte strings are modelled as `List Nat` of byte values; Python `int`
arithmetic is modelled on `Int`/`Nat` with explicit `% 2^32` masking
where the source masks with `& UINT32_MAX`; Python exceptions are
modelled with `Except`.
-/

abbrev Bytes := List Nat

/-- ASCII byte values of a string literal. -/
def bs (s : String) : Bytes := s.toList.map (fun c => c.toNat)

/-- `engine/error.py` is not part of the provided sources.
Modelled from the spec: §7 lists the ISA-level error kinds
BAD_CONFIG, BAD_ARGS, BAD_INST, SEG_FAULT, ALLOC_FAIL,
INVALID_SOURCE_FILE and UNKNOWN. -/
inductive ISAErrorCodes where
  | BAD_CONFIG
  | BAD_ARGS
  | BAD_INST
  | SEG_FAULT
  | ALLOC_FAIL
  | INVALID_SOURCE_FILE
  | UNKNOWN
deriving DecidableEq, Repr

/-- Errors that can escape a modelled operation: an `ISAError(code, msg)`
raised by the engine, or one of the host Python exceptions that the
relevant code paths can raise (`step()` later normalises the latter to
`UNKNOWN`). -/
inductive Err where
  | isa (code : ISAErrorCodes) (msg : String)
  | pyValueError
  | pyIndexError
  | pyKeyError
  | pyOverflowError
  | pyZeroDivisionError
  | hostEffect (syscallNo : Nat)
deriving DecidableEq, Repr

deriving instance DecidableEq for Except

/-! ## engine/util.py -/

def UINT32_MAX : Nat := 4294967295

def INT32_MAX : Nat := 2147483647

/-- Python `i & UINT32_MAX` on an arbitrary-sign `int`: bitwise AND with
`2^32 - 1` equals reduction mod `2^32` (Python negative ints behave as
infinite two's complement). `util.to_u32`. -/
def to_u32 (i : Int) : Nat := (Int.emod i 4294967296).toNat

/-- `util.uint32_to_int32`: `(u & 0x7FFFFFFF) - (u & 0x80000000)`. -/
def uint32_to_int32 (u : Nat) : Int :=
  ((u &&& INT32_MAX : Nat) : Int) - ((u &&& (INT32_MAX + 1) : Nat) : Int)

/-- `util.uint32_to_bytes`: `u.to_bytes(4, "little")`; Python raises
`OverflowError` when the value is negative or does not fit in 4 bytes. -/
def uint32_to_bytes (u : Int) : Except Err Bytes :=
  if 0 ≤ u ∧ u < 4294967296 then
    let v := u.toNat
    Except.ok [v % 256, v / 256 % 256, v / 65536 % 256, v / 16777216 % 256]
  else
    Except.error Err.pyOverflowError

/-- `util.bytes_to_uint32`: `int.from_bytes(b, byteorder="little")`
(accepts any length, as the source does). -/
def bytes_to_uint32 (b : Bytes) : Nat :=
  b.foldr (fun x acc => x + 256 * acc) 0

def not32 (u : Nat) : Nat := u ^^^ UINT32_MAX

def xor32 (u1 u2 : Nat) : Nat := u1 ^^^ u2

def and32 (u1 u2 : Nat) : Nat := u1 &&& u2

def or32 (u1 u2 : Nat) : Nat := u1 ||| u2

/-- `util.sal32`: `(u1 << u2) & UINT32_MAX`. -/
def sal32 (u1 u2 : Nat) : Nat := (u1 <<< u2) &&& UINT32_MAX

/-- `util.sar32`: `(uint32_to_int32(u1) >> u2) & UINT32_MAX`; Python `>>`
on `int` is an arithmetic (floor) shift, i.e. floor division by `2^u2`,
and `& UINT32_MAX` on the possibly negative result is mod `2^32`. -/
def sar32 (u1 u2 : Nat) : Nat :=
  to_u32 (Int.fdiv (uint32_to_int32 u1) (2 ^ u2))

/-- `util.shl32`: `(u1 << u2) & UINT32_MAX`. -/
def shl32 (u1 u2 : Nat) : Nat := (u1 <<< u2) &&& UINT32_MAX

/-- `util.shr32`: `u1 >> u2`. -/
def shr32 (u1 u2 : Nat) : Nat := u1 >>> u2

/-- `util.rol32`. -/
def rol32 (u1 u2 : Nat) : Nat :=
  if h : 32 ≤ u2 then rol32 u1 (u2 % 32)
  else if u2 = 0 then u1
  else shl32 u1 u2 + shr32 u1 (32 - u2)
termination_by u2
decreasing_by exact Nat.lt_of_lt_of_le (Nat.mod_lt _ (by norm_num)) h

/-- `util.ror32`. -/
def ror32 (u1 u2 : Nat) : Nat :=
  if h : 32 ≤ u2 then ror32 u1 (u2 % 32)
  else if u2 = 0 then u1
  else shr32 u1 u2 + shl32 u1 (32 - u2)
termination_by u2
decreasing_by exact Nat.lt_of_lt_of_le (Nat.mod_lt _ (by norm_num)) h

def add32 (u1 u2 : Nat) : Nat := (u1 + u2) &&& UINT32_MAX

/-- `util.sub32`: `(u1 - u2) & UINT32_MAX` on Python ints, whose
difference may be negative. -/
def sub32 (i1 i2 : Int) : Nat := to_u32 (i1 - i2)

/-- `util.mul32`: `((u1*u2) & UINT32_MAX, (u1*u2) // 2^32)`; the signed
`MUL` instruction feeds it negative ints, so the arguments are `Int` and
the `//` is Python floor division. -/
def mul32 (i1 i2 : Int) : Nat × Int :=
  (to_u32 (i1 * i2), Int.fdiv (i1 * i2) 4294967296)

/-- `util.div32`: `((u1 // u2) & UINT32_MAX, u1 % u2)` with Python floor
division and floor mod.  Python raises `ZeroDivisionError` when
`u2 = 0`; the engine's `DIV`/`DIVu` cases of the model throw that error
before calling this function. -/
def div32 (i1 i2 : Int) : Nat × Int :=
  (to_u32 (Int.fdiv i1 i2), Int.fmod i1 i2)

def eq32 (u1 u2 : Nat) : Bool := u1 == u2

def neq32 (u1 u2 : Nat) : Bool := u1 != u2

def gt32 (u1 u2 : Nat) : Bool := decide (uint32_to_int32 u2 < uint32_to_int32 u1)

def gtu32 (u1 u2 : Nat) : Bool := decide (u2 < u1)

def gte32 (u1 u2 : Nat) : Bool := decide (uint32_to_int32 u2 ≤ uint32_to_int32 u1)

def gteu32 (u1 u2 : Nat) : Bool := decide (u2 ≤ u1)

def lt32 (u1 u2 : Nat) : Bool := decide (uint32_to_int32 u1 < uint32_to_int32 u2)

def ltu32 (u1 u2 : Nat) : Bool := decide (u1 < u2)

def lte32 (u1 u2 : Nat) : Bool := decide (uint32_to_int32 u1 ≤ uint32_to_int32 u2)

def lteu32 (u1 u2 : Nat) : Bool := decide (u1 ≤ u2)

/-- `util.range_collide`. -/
def range_collide (s1 e1 s2 e2 : Nat) : Bool :=
  (decide (s2 ≤ s1) && decide (s1 < e2)) || (decide (s1 ≤ s2) && decide (s2 < e1))

/-! ### Facts about the shift helpers (claim C3) -/

theorem uint32_to_int32_of_lt {u : Nat} (h : u < 2147483648) :
    uint32_to_int32 u = (u : Int) := by
  have e31 : (2:Nat) ^ 31 = 2147483648 := by norm_num
  have e1 : INT32_MAX = 2 ^ 31 - 1 := by norm_num [INT32_MAX]
  have e2 : INT32_MAX + 1 = 2 ^ 31 := by norm_num [INT32_MAX]
  have h1 : u &&& INT32_MAX = u % 2 ^ 31 := by
    rw [e1, Nat.and_pow_two_sub_one_eq_mod]
  have hbit : u.testBit 31 = false := Nat.testBit_eq_false_of_lt (by omega)
  have h2 : u &&& (INT32_MAX + 1) = 0 := by
    rw [e2, Nat.and_two_pow, hbit]
    simp
  unfold uint32_to_int32
  rw [h1, h2, Nat.mod_eq_of_lt (by omega)]
  simp

theorem uint32_to_int32_of_ge {u : Nat} (hlo : 2147483648 ≤ u) (hhi : u < 4294967296) :
    uint32_to_int32 u = (u : Int) - 4294967296 := by
  have e31 : (2:Nat) ^ 31 = 2147483648 := by norm_num
  have e1 : INT32_MAX = 2 ^ 31 - 1 := by norm_num [INT32_MAX]
  have e2 : INT32_MAX + 1 = 2 ^ 31 := by norm_num [INT32_MAX]
  have h1 : u &&& INT32_MAX = u % 2 ^ 31 := by
    rw [e1, Nat.and_pow_two_sub_one_eq_mod]
  have hbit : u.testBit 31 = true := by
    rw [Nat.testBit_to_div_mod]
    have hdiv : u / 2 ^ 31 = 1 := by omega
    rw [hdiv]
    decide
  have h2 : u &&& (INT32_MAX + 1) = 2 ^ 31 := by
    rw [e2, Nat.and_two_pow, hbit]
    simp
  have hmod : u % 2 ^ 31 = u - 2147483648 := by omega
  unfold uint32_to_int32
  rw [h1, h2, hmod]
  omega

theorem uint32_to_int32_lower (u : Nat) : -2147483648 ≤ uint32_to_int32 u := by
  unfold uint32_to_int32
  have h2 : u &&& (INT32_MAX + 1) ≤ INT32_MAX + 1 :=
    Nat.le_of_lt_succ (Nat.lt_succ_of_le (Nat.and_le_right))
  have : ((u &&& (INT32_MAX + 1) : Nat) : Int) ≤ 2147483648 := by
    norm_num [INT32_MAX] at h2 ⊢
    exact_mod_cast h2
  omega

/-- C3 counterexample: for `u = 0x80000000` (sign bit set) and shift
count 32, `sar32` returns `0xFFFFFFFF`, not `0` as the claim states:
Python's arithmetic right shift of a negative value saturates to `-1`,
which re-masks to all-ones. -/
theorem sar32_large_count_counterexample :
    sar32 2147483648 32 = 4294967295 ∧ ¬ sar32 2147483648 32 = 0 := by
  refine ⟨by decide, by decide⟩

/-- C3 amended: for every 32-bit value `u` and shift count `c ≥ 32`, the
count is applied as-is (no reduction mod 32); `sal32`, `shl32` and
`shr32` all yield 0, while `sar32` yields 0 when the sign bit of `u` is
clear and `0xFFFFFFFF` when it is set. -/
theorem shift_helpers_large_count (u c : Nat) (hu : u < 4294967296) (hc : 32 ≤ c) :
    sal32 u c = 0 ∧ shl32 u c = 0 ∧ shr32 u c = 0 ∧
      sar32 u c = (if u < 2147483648 then 0 else 4294967295) := by
  have e32 : (2:Nat) ^ 32 = 4294967296 := by norm_num
  have hpow : (2:Nat) ^ 32 ∣ 2 ^ c := pow_dvd_pow 2 hc
  have hple : (4294967296 : Nat) ≤ 2 ^ c := by
    calc (4294967296 : Nat) = 2 ^ 32 := e32.symm
    _ ≤ 2 ^ c := Nat.pow_le_pow_right (by norm_num) hc
  have hshl : (u <<< c) &&& UINT32_MAX = 0 := by
    rw [Nat.shiftLeft_eq]
    have hm : UINT32_MAX = 2 ^ 32 - 1 := by norm_num [UINT32_MAX]
    rw [hm, Nat.and_pow_two_sub_one_eq_mod]
    exact Nat.mod_eq_zero_of_dvd (Dvd.dvd.mul_left hpow u)
  have hshr : u >>> c = 0 := by
    rw [Nat.shiftRight_eq_div_pow]
    exact Nat.div_eq_of_lt (by omega)
  refine ⟨hshl, hshl, hshr, ?_⟩
  by_cases hs : u < 2147483648
  · rw [if_pos hs]
    unfold sar32
    rw [uint32_to_int32_of_lt hs]
    have hfd : Int.fdiv (u : Int) (2 ^ c) = 0 := by
      rw [Int.fdiv_eq_ediv _ (by positivity)]
      refine Int.ediv_eq_zero_of_lt (by positivity) ?_
      have : (u : Int) < 4294967296 := by exact_mod_cast hu
      have h2c : (4294967296 : Int) ≤ 2 ^ c := by exact_mod_cast hple
      omega
    rw [hfd]
    decide
  · rw [if_neg hs]
    unfold sar32
    push_neg at hs
    rw [uint32_to_int32_of_ge hs hu]
    have hfd : Int.fdiv ((u : Int) - 4294967296) (2 ^ c) = -1 := by
      rw [Int.fdiv_eq_ediv _ (by positivity)]
      have hc0 : (2 : Int) ^ c ≠ 0 := by positivity
      have hkey : ((u : Int) - 4294967296 + 1 * 2 ^ c) / 2 ^ c =
          ((u : Int) - 4294967296) / 2 ^ c + 1 := Int.add_mul_ediv_right _ 1 hc0
      have hzero : ((u : Int) - 4294967296 + 1 * 2 ^ c) / 2 ^ c = 0 := by
        refine Int.ediv_eq_zero_of_lt ?_ ?_
        · have h2c : (4294967296 : Int) ≤ 2 ^ c := by exact_mod_cast hple
          have : (2147483648 : Int) ≤ (u : Int) := by exact_mod_cast hs
          omega
        · have : (u : Int) < 4294967296 := by exact_mod_cast hu
          omega
      omega
    rw [hfd]
    decide

/-- C3 amended witness. -/
theorem shift_helpers_large_count_witness :
    (5 < 4294967296 ∧ 32 ≤ 33) ∧
      (sal32 5 33 = 0 ∧ shl32 5 33 = 0 ∧ shr32 5 33 = 0 ∧
        sar32 5 33 = (if 5 < 2147483648 then 0 else 4294967295)) :=
  ⟨⟨by decide, by decide⟩, shift_helpers_large_count 5 33 (by decide) (by decide)⟩

/-! ## Python byte-string primitives -/

/-- Python ASCII whitespace (what `bytes.strip()` removes). -/
def isPySpace (b : Nat) : Bool :=
  b == 32 || b == 9 || b == 10 || b == 13 || b == 11 || b == 12

/-- Python `bytes.strip()`. -/
def stripBytes (l : Bytes) : Bytes :=
  ((l.dropWhile isPySpace).reverse.dropWhile isPySpace).reverse

/-- Python `bytes.partition(sep)` for a single-byte separator:
`(before, separator-found, after)`. -/
def partitionByte : Bytes → Nat → Bytes × Bool × Bytes
  | [], _ => ([], false, [])
  | b :: rest, sep =>
    if b = sep then ([], true, rest)
    else
      let (pre, found, post) := partitionByte rest sep
      (b :: pre, found, post)

def splitByteAux : Bytes → Nat → Bytes → List Bytes
  | [], _, cur => [cur.reverse]
  | b :: rest, sep, cur =>
    if b = sep then cur.reverse :: splitByteAux rest sep []
    else splitByteAux rest sep (b :: cur)

/-- Python `bytes.split(sep)` for a single-byte separator. -/
def splitByte (l : Bytes) (sep : Nat) : List Bytes := splitByteAux l sep []

/-- Value of an ASCII digit byte in the given base. -/
def digitVal (base : Nat) (b : Nat) : Option Nat :=
  if 48 ≤ b ∧ b ≤ 57 ∧ b - 48 < base then some (b - 48)
  else if 97 ≤ b ∧ b ≤ 122 ∧ b - 87 < base then some (b - 87)
  else if 65 ≤ b ∧ b ≤ 90 ∧ b - 55 < base then some (b - 55)
  else none

/-- Parse a non-empty digit string in the given base. -/
def digitsVal (base : Nat) (l : Bytes) : Option Nat :=
  if l = [] then none
  else
    l.foldl
      (fun acc b =>
        match acc, digitVal base b with
        | some a, some d => some (a * base + d)
        | _, _ => none)
      (some 0)

/-- Python `int(x, 0)` digit part: base prefix auto-detection, with
multi-digit decimal literals rejected when they start with `0`. -/
def pyIntBase0Digits : Bytes → Option Nat
  | 48 :: x :: rest =>
    if x = 120 ∨ x = 88 then digitsVal 16 rest
    else if x = 111 ∨ x = 79 then digitsVal 8 rest
    else if x = 98 ∨ x = 66 then digitsVal 2 rest
    else if (x :: rest).all (fun b => b == 48) then some 0
    else none
  | l => digitsVal 10 l

/-- Optional single `+`/`-` sign. -/
def pySign : Bytes → Int × Bytes
  | 43 :: rest => (1, rest)
  | 45 :: rest => (-1, rest)
  | l => (1, l)

/-- Python `int(x)` (base 10) on a byte string; `none` models
`ValueError`. -/
def pyInt (l : Bytes) : Option Int :=
  let (sign, l) := pySign (stripBytes l)
  (digitsVal 10 l).map (fun n => sign * (n : Int))

/-- Python `int(x, 0)` on a byte string; `none` models `ValueError`. -/
def pyInt0 (l : Bytes) : Option Int :=
  let (sign, l) := pySign (stripBytes l)
  (pyIntBase0Digits l).map (fun n => sign * (n : Int))

/-! ## engine/const.py -/

def PROGRAM_COUNTER_REG_NAME : Bytes := bs "PC"

def BASE_POINTER_REG_NAME : Bytes := bs "FP"

def STACK_POINTER_REG_NAME : Bytes := bs "SP"

def MNEMONIC : List Bytes :=
  [bs "JMP", bs "JZ", bs "JNZ", bs "MOV", bs "NOT", bs "AND", bs "OR",
   bs "XOR", bs "SAL", bs "SAR", bs "SHL", bs "SHR", bs "ROL", bs "ROR",
   bs "ADD", bs "SUB", bs "MULu", bs "MUL", bs "DIVu", bs "DIV",
   bs "EQ", bs "NEQ", bs "GT", bs "GTu", bs "GTE", bs "GTEu",
   bs "LT", bs "LTu", bs "LTE", bs "LTEu", bs "CALL", bs "RET",
   bs "SYSCALL", bs "PUSH", bs "POP", bs "SWAP", bs "COPY", bs "NOP"]

def REGISTERS : List Bytes :=
  [bs "R1", bs "R2", bs "R3", bs "R4", bs "R5", bs "R6", bs "R7", bs "R8",
   PROGRAM_COUNTER_REG_NAME, BASE_POINTER_REG_NAME, STACK_POINTER_REG_NAME]

/-- `INST_DELIMITER = b"\n"` (a single byte). -/
def INST_DELIMITER : Bytes := [10]

def FILE_SIZE_LIMIT : Nat := 65536

def codeStart : Nat := 4194304

def codeSize : Nat := 1048576

def bssStart : Nat := 5242880

def bssSize : Nat := 65536

def stackStart : Nat := 4293918720

def stackSize : Nat := 1048576

/-! ## engine/operand.py -/

inductive OperandType where
  | REGISTER
  | ADDRESS
  | IMMEDIATE
deriving DecidableEq, Repr

structure Operand where
  type : OperandType
  data : Bytes
deriving DecidableEq, Repr

/-- `Operand.__init__`: classify a (stripped) operand expression. -/
def mkOperand (expression : Bytes) : Except Err Operand :=
  if expression ∈ REGISTERS then .ok ⟨.REGISTER, expression⟩
  else if expression.head? = some 91 ∧ expression.getLast? = some 93 then
    .ok ⟨.ADDRESS, (expression.drop 1).dropLast⟩
  else if (pyInt expression).isSome then .ok ⟨.IMMEDIATE, expression⟩
  else if (pyInt0 expression).isSome then .ok ⟨.IMMEDIATE, expression⟩
  else .error (.isa .BAD_INST "invalid operand")

/-! ## engine/instruction.py -/

structure Instruction where
  mnemonic : Bytes
  operands : List Operand
  len : Nat
deriving DecidableEq, Repr

/-- `Instruction.__init__` on one line of bytes (without the trailing
delimiter); the recorded length is the line length plus one. -/
def mkInstruction (line : Bytes) : Except Err Instruction := do
  let len := line.length + 1
  let (pre, _, _) := partitionByte line 59
  let l := stripBytes pre
  if l = [] then
    return ⟨bs "NOP", [], len⟩
  let (mnemonic, _, operandsTxt) := partitionByte l 32
  let operands ←
    if operandsTxt = [] then pure []
    else (splitByte operandsTxt 44).mapM (fun o => mkOperand (stripBytes o))
  if mnemonic ∈ MNEMONIC then
    return ⟨mnemonic, operands, len⟩
  else
    throw (.isa .BAD_INST "unknown mnemonic")

/-! ## engine/segment.py -/

/-- A segment; `mem` is the byte buffer, meaningful on `[0, size)`
(`memoryview(bytearray(size))` in the source, zero-initialised). -/
structure Segment where
  name : Bytes
  start : Nat
  size : Nat
  perm : Nat
  mem : Nat → Nat

/-- `self.end = start + size`. -/
def Segment.endAddr (s : Segment) : Nat := s.start + s.size

def Segment.readable (s : Segment) : Bool := s.perm &&& 4 == 4

def Segment.writable (s : Segment) : Bool := s.perm &&& 2 == 2

def Segment.executable (s : Segment) : Bool := s.perm &&& 1 == 1

/-- Normalise one Python slice bound against a buffer of length `size`:
negative indices count from the end, and bounds clamp to `[0, size]`. -/
def pySliceIdx (size : Nat) (i : Int) : Nat :=
  if i < 0 then ((size : Int) + i).toNat else min i.toNat size

/-- The bytes at relative indices `[lo, hi)` (already normalised). -/
def Segment.readBytesRel (s : Segment) (lo hi : Nat) : Bytes :=
  (List.range (hi - lo)).map (fun k => s.mem (lo + k))

/-- `Segment.__getitem__` with a slice of absolute addresses. -/
def Segment.getSlice (s : Segment) (lo hi : Int) : Except Err Bytes :=
  if ¬ s.readable then .error (.isa .SEG_FAULT "segment is not readable")
  else
    .ok (s.readBytesRel (pySliceIdx s.size (lo - s.start)) (pySliceIdx s.size (hi - s.start)))

/-- `Segment.__getitem__` with an integer absolute address
(Python `memoryview` indexing: negative indices wrap once, out-of-range
raises `IndexError`). -/
def Segment.getByte (s : Segment) (key : Int) : Except Err Nat :=
  if ¬ s.readable then .error (.isa .SEG_FAULT "segment is not readable")
  else
    if 0 ≤ key - (s.start : Int) ∧ key - (s.start : Int) < s.size then
      .ok (s.mem (key - (s.start : Int)).toNat)
    else if -(s.size : Int) ≤ key - (s.start : Int) ∧ key - (s.start : Int) < 0 then
      .ok (s.mem ((s.size : Int) + (key - (s.start : Int))).toNat)
    else .error .pyIndexError

/-- `Segment.__setitem__` with an integer absolute address. -/
def Segment.setByte (s : Segment) (key : Int) (v : Nat) : Except Err Segment :=
  if ¬ s.writable then .error (.isa .SEG_FAULT "segment is not writable")
  else
    if 0 ≤ key - (s.start : Int) ∧ key - (s.start : Int) < s.size then
      .ok { s with mem := fun i => if i = (key - (s.start : Int)).toNat then v else s.mem i }
    else if -(s.size : Int) ≤ key - (s.start : Int) ∧ key - (s.start : Int) < 0 then
      .ok { s with
            mem := fun i =>
              if i = ((s.size : Int) + (key - (s.start : Int))).toNat then v else s.mem i }
    else .error .pyIndexError

/-- `Segment.__setitem__` with a slice of absolute addresses;
`memoryview` slice assignment requires the value length to equal the
(clamped) slice length, else `ValueError`. -/
def Segment.setSlice (s : Segment) (lo hi : Int) (v : Bytes) : Except Err Segment :=
  if ¬ s.writable then .error (.isa .SEG_FAULT "segment is not writable")
  else
    if v.length = pySliceIdx s.size (hi - s.start) - pySliceIdx s.size (lo - s.start) then
      .ok { s with
            mem := fun i =>
              if pySliceIdx s.size (lo - s.start) ≤ i ∧ i < pySliceIdx s.size (hi - s.start) then
                v.getD (i - pySliceIdx s.size (lo - s.start)) 0
              else s.mem i }
    else .error .pyValueError

/-- Whether `sub` occurs in the buffer at position `i`. -/
def bytesAgree (mem : Nat → Nat) (sub : Bytes) (i : Nat) : Bool :=
  (List.range sub.length).all (fun k => mem (i + k) == sub.getD k 0)

def pyFindAux (mem : Nat → Nat) (bound : Nat) (sub : Bytes) : Nat → Nat → Int
  | _, 0 => -1
  | i, fuel + 1 =>
    if i + sub.length ≤ bound ∧ bytesAgree mem sub i then (i : Int)
    else pyFindAux mem bound sub (i + 1) fuel

/-- Python `bytes.find(sub, start, end)` over a buffer of length `size`:
the index of the first occurrence of `sub` in `[start, end)`, else -1. -/
def pyFind (mem : Nat → Nat) (size : Nat) (sub : Bytes) (start : Int) (endOpt : Option Int) : Int :=
  let i0 : Nat := if start < 0 then ((size : Int) + start).toNat else start.toNat
  let bound : Nat :=
    match endOpt with
    | none => size
    | some e => pySliceIdx size e
  pyFindAux mem bound sub i0 (bound + 1 - i0)

/-- `Segment.find`: adjusts the given absolute bounds to be relative,
searches the underlying buffer, and adds `start` back onto whatever the
Python `find` returned (including its `-1` not-found result). -/
def Segment.find (s : Segment) (sub : Bytes) (startOpt endOpt : Option Int) : Int :=
  let st : Int := match startOpt with | none => 0 | some a => a - s.start
  let en : Option Int := match endOpt with | none => none | some e => some (e - s.start)
  pyFind s.mem s.size sub st en + s.start

/-! ## engine/memory_manager.py -/

abbrev MemoryManager := List Segment

/-- `MemoryManager.find_segment_by_addr`. -/
def find_segment_by_addr : MemoryManager → Nat → Except Err Segment
  | [], _ => .error (.isa .SEG_FAULT "cannot access memory address")
  | s :: rest, addr =>
    if s.start ≤ addr ∧ addr < s.endAddr then .ok s
    else find_segment_by_addr rest addr

/-- Apply a mutation to the segment owning `addr`. -/
def updateSegmentAt : MemoryManager → Nat → (Segment → Except Err Segment) →
    Except Err MemoryManager
  | [], _, _ => .error (.isa .SEG_FAULT "cannot access memory address")
  | s :: rest, addr, f =>
    if s.start ≤ addr ∧ addr < s.endAddr then do
      let s' ← f s
      return s' :: rest
    else do
      let rest' ← updateSegmentAt rest addr f
      return s :: rest'

/-- `MemoryManager.__getitem__` with an integer key. -/
def mmGetByte (mm : MemoryManager) (addr : Nat) : Except Err Nat := do
  let s ← find_segment_by_addr mm addr
  s.getByte addr

/-- `MemoryManager.__getitem__` with a slice key (dispatch on `key.start`). -/
def mmGetSlice (mm : MemoryManager) (lo : Nat) (hi : Int) : Except Err Bytes := do
  let s ← find_segment_by_addr mm lo
  s.getSlice lo hi

/-- `MemoryManager.__setitem__` with an integer key. -/
def mmSetByte (mm : MemoryManager) (addr : Nat) (v : Nat) : Except Err MemoryManager :=
  updateSegmentAt mm addr (fun s => s.setByte addr v)

/-- `MemoryManager.__setitem__` with a slice key. -/
def mmSetSlice (mm : MemoryManager) (lo : Nat) (hi : Int) (v : Bytes) :
    Except Err MemoryManager :=
  updateSegmentAt mm lo (fun s => s.setSlice lo hi v)

/-- `MemoryManager.set32` (the source binds `addr = to_u32(addr)` once;
it is inlined here). -/
def set32 (mm : MemoryManager) (addr : Int) (value : Int) : Except Err MemoryManager := do
  let b ← uint32_to_bytes value
  mmSetSlice mm (to_u32 addr) ((to_u32 addr : Int) + 4) b

/-- `MemoryManager.get32` (the source binds `addr = to_u32(addr)` once;
it is inlined here). -/
def get32 (mm : MemoryManager) (addr : Int) : Except Err Nat := do
  let b ← mmGetSlice mm (to_u32 addr) ((to_u32 addr : Int) + 4)
  return bytes_to_uint32 b

/-- `MemoryManager.get_cstring`. -/
def get_cstring (mm : MemoryManager) (addr : Nat) : Except Err Bytes := do
  let segment ← find_segment_by_addr mm addr
  let cstringEnd : Int := segment.find [0] (some addr) none
  let cstringEnd : Int :=
    if cstringEnd = -1 then ((segment.start + segment.size : Nat) : Int) else cstringEnd
  segment.getSlice addr cstringEnd

/-! ## engine/register.py -/

/-- The fixed register file (`Registers.__init__` sets every register
to 0); every write path masks with `to_u32`, so fields hold the stored
Python non-negative ints. -/
structure RegFile where
  r1 : Nat
  r2 : Nat
  r3 : Nat
  r4 : Nat
  r5 : Nat
  r6 : Nat
  r7 : Nat
  r8 : Nat
  pc : Nat
  fp : Nat
  sp : Nat
deriving DecidableEq, Repr

/-- Raw dictionary lookup `self._regs[name]` (callers have validated
`name ∈ REGISTERS`). -/
def regLookup (rf : RegFile) (name : Bytes) : Nat :=
  if name = bs "R1" then rf.r1
  else if name = bs "R2" then rf.r2
  else if name = bs "R3" then rf.r3
  else if name = bs "R4" then rf.r4
  else if name = bs "R5" then rf.r5
  else if name = bs "R6" then rf.r6
  else if name = bs "R7" then rf.r7
  else if name = bs "R8" then rf.r8
  else if name = bs "PC" then rf.pc
  else if name = bs "FP" then rf.fp
  else if name = bs "SP" then rf.sp
  else 0

/-- Raw dictionary store `self._regs[name] = v`. -/
def regStore (rf : RegFile) (name : Bytes) (v : Nat) : RegFile :=
  if name = bs "R1" then { rf with r1 := v }
  else if name = bs "R2" then { rf with r2 := v }
  else if name = bs "R3" then { rf with r3 := v }
  else if name = bs "R4" then { rf with r4 := v }
  else if name = bs "R5" then { rf with r5 := v }
  else if name = bs "R6" then { rf with r6 := v }
  else if name = bs "R7" then { rf with r7 := v }
  else if name = bs "R8" then { rf with r8 := v }
  else if name = bs "PC" then { rf with pc := v }
  else if name = bs "FP" then { rf with fp := v }
  else if name = bs "SP" then { rf with sp := v }
  else rf

/-- `Registers.get_reg`: rejects names outside the register set and the
name `PC`. -/
def get_reg (rf : RegFile) (name : Bytes) : Except Err Nat :=
  if name ∉ REGISTERS ∨ name = PROGRAM_COUNTER_REG_NAME then
    .error (.isa .BAD_INST "invalid operand")
  else .ok (regLookup rf name)

/-- `Registers.set_reg`: rejects names outside the register set and the
name `PC`; wraps the stored value with `to_u32`. -/
def set_reg (rf : RegFile) (name : Bytes) (value : Int) : Except Err RegFile :=
  if name ∉ REGISTERS ∨ name = PROGRAM_COUNTER_REG_NAME then
    .error (.isa .BAD_INST "invalid operand")
  else .ok (regStore rf name (to_u32 value))

/-- `Registers.get_program_counter`. -/
def get_program_counter (rf : RegFile) : Nat := rf.pc

/-- `Registers.set_program_counter`. -/
def set_program_counter (rf : RegFile) (newPc : Int) : RegFile :=
  { rf with pc := to_u32 newPc }

/-- Index of the operator byte picked by the greedy regex
`(.*)([+*-])(.*)`: the last `+`/`*`/`-` in the string, if any. -/
def lastOpIdx (l : Bytes) : Option Nat :=
  (l.reverse.findIdx? (fun b => b == 43 || b == 42 || b == 45)).map
    (fun j => l.length - 1 - j)

/-- `Registers.eval`: `(value, is-dereference)`.  The ADDRESS case
resolves `reg OP imm`; the value of a `reg - imm` or `reg * imm`
expression is an unmasked Python int (possibly negative or above 2^32).
A failing `int(imm, 0)` is a Python `ValueError`. -/
def regEval (rf : RegFile) (op : Operand) : Except Err (Int × Bool) :=
  match op.type with
  | .REGISTER => do
      let v ← get_reg rf op.data
      return ((v : Int), false)
  | .ADDRESS =>
      match lastOpIdx op.data with
      | none => do
          let v ← get_reg rf (stripBytes op.data)
          return ((v : Int), true)
      | some i => do
          let reg := op.data.take i
          let oper := op.data.getD i 0
          let imm := op.data.drop (i + 1)
          let regVal ← get_reg rf (stripBytes reg)
          match pyInt0 imm with
          | none => .error .pyValueError
          | some immVal =>
            let value : Int :=
              if oper = 43 then (regVal : Int) + immVal
              else if oper = 45 then (regVal : Int) - immVal
              else if oper = 42 then (regVal : Int) * immVal
              else 0
            return (value, true)
  | .IMMEDIATE =>
      match pyInt0 op.data with
      | none => .error .pyValueError
      | some v => return ((to_u32 v : Int), false)

/-! ## engine/file_manager.py -/

abbrev FileManager := List (Bytes × Bytes)

/-- `FileManager.__getitem__`: the stored content (the source wraps it
with its length; callers use `file["content"]` and `file["size"]`). -/
def fmLookup (fm : FileManager) (name : Bytes) : Option Bytes :=
  (fm.find? (fun p => p.1 == name)).map Prod.snd

/-! ## engine/engine.py -/

inductive EngineState where
  | STOPPED
  | RUNNING
  | STEPPING
  | UNKNOWN
deriving DecidableEq, Repr

/-- The engine state visible to the modelled fragment: registers,
memory, virtual files, exit code and run-state.  Breakpoints, the event
emitter (no handlers are registered in the modelled runs) and the
stdin/stdout descriptors are omitted. -/
structure EngSt where
  regs : RegFile
  mem : MemoryManager
  files : FileManager
  exit_code : Nat
  state : EngineState

/-- State-plus-exceptions monad: Python mutations made before an
exception persist, so errors carry the mutated state. -/
def M (α : Type) := EngSt → EngSt × Except Err α

instance : Monad M where
  pure a := fun s => (s, .ok a)
  bind m f := fun s =>
    match m s with
    | (s', .ok a) => f a s'
    | (s', .error e) => (s', .error e)

def mThrow {α : Type} (e : Err) : M α := fun s => (s, .error e)

def mGet : M EngSt := fun s => (s, .ok s)

def mSet (s' : EngSt) : M Unit := fun _ => (s', .ok ())

def mModify (f : EngSt → EngSt) : M Unit := fun s => (f s, .ok ())

def mLift {α : Type} (x : Except Err α) : M α := fun s => (s, x)

/-- `Engine.parse_code_at`. -/
def parse_code_at (mm : MemoryManager) (pc : Nat) : Except Err Instruction := do
  let segment ← find_segment_by_addr mm pc
  if ¬ segment.executable then
    throw (.isa .SEG_FAULT "segment is not writable")
  else do
    let lineEndPos := segment.find INST_DELIMITER (some pc) none
    if lineEndPos = -1 then
      throw (.isa .BAD_INST "instruction ends unexpectedly")
    else do
      let line ← segment.getSlice pc lineEndPos
      mkInstruction line

/-- `Engine.eval`: collapse `Registers.eval` with a 32-bit memory read
when the operand is a dereference. -/
def engEval (op : Operand) : M Int := do
  let st ← mGet
  let (opVal, deref) ← mLift (regEval st.regs op)
  if deref then
    let v ← mLift (get32 st.mem opVal)
    return (v : Int)
  else
    return opVal

/-- `Engine.stack_pop`. -/
def stack_pop : M Nat := do
  let st ← mGet
  let sp ← mLift (get_reg st.regs STACK_POINTER_REG_NAME)
  let value ← mLift (get32 st.mem (sp : Int))
  let st ← mGet
  let regs' ← mLift (set_reg st.regs STACK_POINTER_REG_NAME ((sp : Int) + 4))
  mSet { st with regs := regs' }
  return value

/-- `Engine.stack_push`: decrement SP, then write through `set32` using
the (unmasked) decremented local value, exactly as the source does. -/
def stack_push (value : Int) : M Unit := do
  let st ← mGet
  let sp0 ← mLift (get_reg st.regs STACK_POINTER_REG_NAME)
  let sp : Int := (sp0 : Int) - 4
  let regs' ← mLift (set_reg st.regs STACK_POINTER_REG_NAME sp)
  mSet { st with regs := regs' }
  let st ← mGet
  let mem' ← mLift (set32 st.mem sp value)
  mSet { st with mem := mem' }

/-- `Engine.jmp_to`: PC-relative when the operand is an immediate whose
text starts with `+` or `-`; raises BAD_INST "invalid PC" on a negative
resulting PC. -/
def jmp_to (op : Operand) : M Unit := do
  let v ← engEval op
  let st ← mGet
  let newPc : Int :=
    if op.type = .IMMEDIATE ∧ (op.data.head? = some 43 ∨ op.data.head? = some 45) then
      v + (get_program_counter st.regs : Int)
    else v
  if newPc < 0 then
    mThrow (.isa .BAD_INST "invalid PC")
  else
    mModify (fun st' => { st' with regs := set_program_counter st'.regs newPc })

/-- `Engine.assign_value`. -/
def assign_value (dest : Operand) (value : Int) : M Unit :=
  match dest.type with
  | .IMMEDIATE => mThrow (.isa .BAD_INST "destination operand cannot be an immediate")
  | .REGISTER => do
      let st ← mGet
      let regs' ← mLift (set_reg st.regs dest.data value)
      mSet { st with regs := regs' }
  | .ADDRESS => do
      let st ← mGet
      let (addr, _) ← mLift (regEval st.regs dest)
      let mem' ← mLift (set32 st.mem addr value)
      mSet { st with mem := mem' }

/-- Python `inst.operands[i]`; a missing operand raises `IndexError`. -/
def getOp (inst : Instruction) (i : Nat) : M Operand :=
  match inst.operands[i]? with
  | some o => pure o
  | none => mThrow .pyIndexError

/-- `Engine.init`: copy the program over the start of the code segment
(`mem[:len(program)] = program`, a `KeyError` if no segment is named
"code" and a `ValueError` if the program exceeds the segment size), then
reset FP and SP to stack top − 0x10 and PC to the code start.
Breakpoint clearing and PRNG seeding have no observable effect in the
modelled fragment. -/
def writeSegRawByName : MemoryManager → Bytes → Bytes → Except Err MemoryManager
  | [], _, _ => .error .pyKeyError
  | s :: rest, name, program =>
    if s.name = name then
      if program.length ≤ s.size then
        .ok ({ s with
               mem := fun i => if i < program.length then program.getD i 0 else s.mem i }
             :: rest)
      else .error .pyValueError
    else do
      let rest' ← writeSegRawByName rest name program
      return s :: rest'

def engineInit (program : Bytes) : M Unit := do
  let st ← mGet
  let mem' ← mLift (writeSegRawByName st.mem (bs "code") program)
  mSet { st with mem := mem' }
  let st ← mGet
  let regs1 ← mLift (set_reg st.regs BASE_POINTER_REG_NAME ((stackStart + stackSize - 16 : Nat) : Int))
  let regs2 ← mLift (set_reg regs1 STACK_POINTER_REG_NAME ((stackStart + stackSize - 16 : Nat) : Int))
  let regs3 := set_program_counter regs2 ((codeStart : Nat) : Int)
  mSet { st with regs := regs3 }

/-- `Engine.syscall` dispatch.  Syscalls 0 (INPUT), 1 (OUTPUT),
4 (LIST_FILES), 6 (DOWNLOAD) and 7 (RANDOM) interact with the host
(stdin/stdout readiness, URL fetch, PRNG) and are outside the pure
model; they are mapped to `Err.hostEffect`.  No claim concerns them. -/
def syscall (num arg1 arg2 arg3 : Nat) : M Int :=
  if num = 0 then mThrow (.hostEffect 0)
  else if num = 1 then mThrow (.hostEffect 1)
  else if num = 2 then do
    mModify (fun st => { st with state := .STOPPED })
    mModify (fun st => { st with exit_code := arg1 })
    return (arg1 : Int)
  else if num = 3 then do
    let st ← mGet
    let filename ← mLift (get_cstring st.mem arg1)
    match fmLookup st.files filename with
    | some content => do
        let readLen := min arg3 content.length
        let st ← mGet
        let mem' ← mLift (mmSetSlice st.mem arg2 ((arg2 : Int) + readLen) (content.take readLen))
        mSet { st with mem := mem' }
        return (readLen : Int)
    | none => return (-1)
  else if num = 4 then mThrow (.hostEffect 4)
  else if num = 5 then do
    let st ← mGet
    let command ← mLift (get_cstring st.mem arg1)
    match fmLookup st.files command with
    | some content => do
        engineInit content
        return (-1)
    | none => return (-1)
  else if num = 6 then mThrow (.hostEffect 6)
  else if num = 7 then mThrow (.hostEffect 7)
  else mThrow (.isa .BAD_INST "unknown syscall")

def mSet32 (addr : Int) (value : Int) : M Unit := do
  let st ← mGet
  let mem' ← mLift (set32 st.mem addr value)
  mSet { st with mem := mem' }

def mGet32 (addr : Int) : M Nat := do
  let st ← mGet
  mLift (get32 st.mem addr)

/-- `Engine.resolve_inst` (`engine.py:224`): the Python `match` on the
mnemonic bytes becomes an equality chain; the STEP before/after hooks
are no-ops (no handlers are registered in the modelled runs).
`Engine.eval` results are non-negative Python ints (see
`engEval_ok_nonneg`), so `Int.toNat` at the use sites is lossless. -/
def resolve_inst (inst : Instruction) : M Unit := do
  if inst.mnemonic = bs "JMP" then do
    let o0 ← getOp inst 0
    jmp_to o0
  else if inst.mnemonic = bs "JZ" then do
    let conditionFlag ← stack_pop
    if conditionFlag = 0 then do
      let o0 ← getOp inst 0
      jmp_to o0
  else if inst.mnemonic = bs "JNZ" then do
    let conditionFlag ← stack_pop
    if conditionFlag ≠ 0 then do
      let o0 ← getOp inst 0
      jmp_to o0
  else if inst.mnemonic = bs "MOV" then do
    let o0 ← getOp inst 0
    let o1 ← getOp inst 1
    if o0.type = .ADDRESS ∧ o1.type = .ADDRESS then
      mThrow (.isa .BAD_INST "memory-to-memory instruction is not supported")
    else do
      let v1 ← engEval o1
      assign_value o0 v1
  else if inst.mnemonic = bs "NOT" then do
    let o0 ← getOp inst 0
    let v0 ← engEval o0
    assign_value o0 ((not32 v0.toNat : Nat) : Int)
  else if inst.mnemonic = bs "AND" then do
    let o0 ← getOp inst 0
    let o1 ← getOp inst 1
    if o0.type = .ADDRESS ∧ o1.type = .ADDRESS then
      mThrow (.isa .BAD_INST "memory-to-memory instruction is not supported")
    else do
      let v0 ← engEval o0
      let v1 ← engEval o1
      assign_value o0 ((and32 v0.toNat v1.toNat : Nat) : Int)
  else if inst.mnemonic = bs "OR" then do
    let o0 ← getOp inst 0
    let o1 ← getOp inst 1
    if o0.type = .ADDRESS ∧ o1.type = .ADDRESS then
      mThrow (.isa .BAD_INST "memory-to-memory instruction is not supported")
    else do
      let v0 ← engEval o0
      let v1 ← engEval o1
      assign_value o0 ((or32 v0.toNat v1.toNat : Nat) : Int)
  else if inst.mnemonic = bs "XOR" then do
    let o0 ← getOp inst 0
    let o1 ← getOp inst 1
    if o0.type = .ADDRESS ∧ o1.type = .ADDRESS then
      mThrow (.isa .BAD_INST "memory-to-memory instruction is not supported")
    else do
      let v0 ← engEval o0
      let v1 ← engEval o1
      assign_value o0 ((xor32 v0.toNat v1.toNat : Nat) : Int)
  else if inst.mnemonic = bs "SAL" then do
    let o1 ← getOp inst 1
    if o1.type = .ADDRESS then
      mThrow (.isa .BAD_INST "shift operand must be a register or a immediate")
    else do
      let o0 ← getOp inst 0
      let v0 ← engEval o0
      let v1 ← engEval o1
      assign_value o0 ((sal32 v0.toNat v1.toNat : Nat) : Int)
  else if inst.mnemonic = bs "SAR" then do
    let o1 ← getOp inst 1
    if o1.type = .ADDRESS then
      mThrow (.isa .BAD_INST "shift operand must be a register or a immediate")
    else do
      let o0 ← getOp inst 0
      let v0 ← engEval o0
      let v1 ← engEval o1
      assign_value o0 ((sar32 v0.toNat v1.toNat : Nat) : Int)
  else if inst.mnemonic = bs "SHL" then do
    let o1 ← getOp inst 1
    if o1.type = .ADDRESS then
      mThrow (.isa .BAD_INST "shift operand must be a register or a immediate")
    else do
      let o0 ← getOp inst 0
      let v0 ← engEval o0
      let v1 ← engEval o1
      assign_value o0 ((shl32 v0.toNat v1.toNat : Nat) : Int)
  else if inst.mnemonic = bs "SHR" then do
    let o1 ← getOp inst 1
    if o1.type = .ADDRESS then
      mThrow (.isa .BAD_INST "shift operand must be a register or a immediate")
    else do
      let o0 ← getOp inst 0
      let v0 ← engEval o0
      let v1 ← engEval o1
      assign_value o0 ((shr32 v0.toNat v1.toNat : Nat) : Int)
  else if inst.mnemonic = bs "ROL" then do
    let o1 ← getOp inst 1
    if o1.type = .ADDRESS then
      mThrow (.isa .BAD_INST "rotate operand must be a register or a immediate")
    else do
      let o0 ← getOp inst 0
      let v0 ← engEval o0
      let v1 ← engEval o1
      assign_value o0 ((rol32 v0.toNat v1.toNat : Nat) : Int)
  else if inst.mnemonic = bs "ROR" then do
    let o1 ← getOp inst 1
    if o1.type = .ADDRESS then
      mThrow (.isa .BAD_INST "rotate operand must be a register or a immediate")
    else do
      let o0 ← getOp inst 0
      let v0 ← engEval o0
      let v1 ← engEval o1
      assign_value o0 ((ror32 v0.toNat v1.toNat : Nat) : Int)
  else if inst.mnemonic = bs "ADD" then do
    let o0 ← getOp inst 0
    let o1 ← getOp inst 1
    if o0.type = .ADDRESS ∧ o1.type = .ADDRESS then
      mThrow (.isa .BAD_INST "memory-to-memory instruction is not supported")
    else do
      let v0 ← engEval o0
      let v1 ← engEval o1
      assign_value o0 ((add32 v0.toNat v1.toNat : Nat) : Int)
  else if inst.mnemonic = bs "SUB" then do
    let o0 ← getOp inst 0
    let o1 ← getOp inst 1
    if o0.type = .ADDRESS ∧ o1.type = .ADDRESS then
      mThrow (.isa .BAD_INST "memory-to-memory instruction is not supported")
    else do
      let v0 ← engEval o0
      let v1 ← engEval o1
      assign_value o0 ((sub32 v0 v1 : Nat) : Int)
  else if inst.mnemonic = bs "MULu" then do
    let o0 ← getOp inst 0
    let o1 ← getOp inst 1
    if o0.type ≠ .REGISTER ∨ o1.type ≠ .REGISTER then
      mThrow (.isa .BAD_INST "MULu source and destination operand must be a register")
    else do
      let lo ← engEval o0
      let hi ← engEval o1
      let (lo, hi) := mul32 lo hi
      assign_value o0 ((lo : Nat) : Int)
      assign_value o1 hi
  else if inst.mnemonic = bs "MUL" then do
    let o0 ← getOp inst 0
    let o1 ← getOp inst 1
    if o0.type ≠ .REGISTER ∨ o1.type ≠ .REGISTER then
      mThrow (.isa .BAD_INST "MUL source and destination operand must be a register")
    else do
      let lo ← engEval o0
      let hi ← engEval o1
      let lo := uint32_to_int32 lo.toNat
      let hi := uint32_to_int32 hi.toNat
      let (lo, hi) := mul32 lo hi
      assign_value o0 ((lo : Nat) : Int)
      assign_value o1 hi
  else if inst.mnemonic = bs "DIVu" then do
    let o0 ← getOp inst 0
    let o1 ← getOp inst 1
    if o0.type ≠ .REGISTER ∨ o1.type ≠ .REGISTER then
      mThrow (.isa .BAD_INST "DIVu source and destination operand must be a register")
    else do
      let d ← engEval o0
      let m ← engEval o1
      if m = 0 then mThrow .pyZeroDivisionError
      else do
        let (d, m) := div32 d m
        assign_value o0 ((d : Nat) : Int)
        assign_value o1 m
  else if inst.mnemonic = bs "DIV" then do
    let o0 ← getOp inst 0
    let o1 ← getOp inst 1
    if o0.type ≠ .REGISTER ∨ o1.type ≠ .REGISTER then
      mThrow (.isa .BAD_INST "DIV source and destination operand must be a register")
    else do
      let d ← engEval o0
      let m ← engEval o1
      let d := uint32_to_int32 d.toNat
      let m := uint32_to_int32 m.toNat
      if m = 0 then mThrow .pyZeroDivisionError
      else do
        let (d, m) := div32 d m
        assign_value o0 ((d : Nat) : Int)
        assign_value o1 m
  else if inst.mnemonic = bs "EQ" then do
    let o0 ← getOp inst 0
    let v0 ← engEval o0
    let o1 ← getOp inst 1
    let v1 ← engEval o1
    stack_push ((eq32 v0.toNat v1.toNat).toNat : Int)
  else if inst.mnemonic = bs "NEQ" then do
    let o0 ← getOp inst 0
    let v0 ← engEval o0
    let o1 ← getOp inst 1
    let v1 ← engEval o1
    stack_push ((neq32 v0.toNat v1.toNat).toNat : Int)
  else if inst.mnemonic = bs "GT" then do
    let o0 ← getOp inst 0
    let v0 ← engEval o0
    let o1 ← getOp inst 1
    let v1 ← engEval o1
    stack_push ((gt32 v0.toNat v1.toNat).toNat : Int)
  else if inst.mnemonic = bs "GTu" then do
    let o0 ← getOp inst 0
    let v0 ← engEval o0
    let o1 ← getOp inst 1
    let v1 ← engEval o1
    stack_push ((gtu32 v0.toNat v1.toNat).toNat : Int)
  else if inst.mnemonic = bs "GTE" then do
    let o0 ← getOp inst 0
    let v0 ← engEval o0
    let o1 ← getOp inst 1
    let v1 ← engEval o1
    stack_push ((gte32 v0.toNat v1.toNat).toNat : Int)
  else if inst.mnemonic = bs "GTEu" then do
    let o0 ← getOp inst 0
    let v0 ← engEval o0
    let o1 ← getOp inst 1
    let v1 ← engEval o1
    stack_push ((gteu32 v0.toNat v1.toNat).toNat : Int)
  else if inst.mnemonic = bs "LT" then do
    let o0 ← getOp inst 0
    let v0 ← engEval o0
    let o1 ← getOp inst 1
    let v1 ← engEval o1
    stack_push ((lt32 v0.toNat v1.toNat).toNat : Int)
  else if inst.mnemonic = bs "LTu" then do
    let o0 ← getOp inst 0
    let v0 ← engEval o0
    let o1 ← getOp inst 1
    let v1 ← engEval o1
    stack_push ((ltu32 v0.toNat v1.toNat).toNat : Int)
  else if inst.mnemonic = bs "LTE" then do
    let o0 ← getOp inst 0
    let v0 ← engEval o0
    let o1 ← getOp inst 1
    let v1 ← engEval o1
    stack_push ((lte32 v0.toNat v1.toNat).toNat : Int)
  else if inst.mnemonic = bs "LTEu" then do
    let o0 ← getOp inst 0
    let v0 ← engEval o0
    let o1 ← getOp inst 1
    let v1 ← engEval o1
    stack_push ((lteu32 v0.toNat v1.toNat).toNat : Int)
  else if inst.mnemonic = bs "CALL" then do
    let st ← mGet
    let pc := get_program_counter st.regs
    stack_push ((pc : Nat) : Int)
    let o0 ← getOp inst 0
    let v ← engEval o0
    mModify (fun st' => { st' with regs := set_program_counter st'.regs v })
  else if inst.mnemonic = bs "RET" then do
    let retAddr ← stack_pop
    mModify (fun st' => { st' with regs := set_program_counter st'.regs ((retAddr : Nat) : Int) })
  else if inst.mnemonic = bs "SYSCALL" then do
    let st ← mGet
    let regList := st.regs
    let retValue ← syscall regList.r8 regList.r1 regList.r2 regList.r3
    let st ← mGet
    let regs' ← mLift (set_reg st.regs (bs "R8") retValue)
    mSet { st with regs := regs' }
  else if inst.mnemonic = bs "PUSH" then do
    let o0 ← getOp inst 0
    let v ← engEval o0
    stack_push v
  else if inst.mnemonic = bs "POP" then do
    let value ← stack_pop
    let o0 ← getOp inst 0
    assign_value o0 ((value : Nat) : Int)
  else if inst.mnemonic = bs "SWAP" then do
    let st ← mGet
    let sp ← mLift (get_reg st.regs STACK_POINTER_REG_NAME)
    let o0 ← getOp inst 0
    let v ← engEval o0
    let target := sub32 (sp : Int) (v * 4)
    let value1 ← mGet32 (sp : Int)
    let value2 ← mGet32 (target : Int)
    mSet32 (sp : Int) ((value2 : Nat) : Int)
    mSet32 (target : Int) ((value1 : Nat) : Int)
  else if inst.mnemonic = bs "COPY" then do
    let st ← mGet
    let sp ← mLift (get_reg st.regs STACK_POINTER_REG_NAME)
    let o0 ← getOp inst 0
    let v ← engEval o0
    let target := sub32 (sp : Int) (v * 4)
    let value ← mGet32 (target : Int)
    stack_push ((value : Nat) : Int)
  else if inst.mnemonic = bs "NOP" then
    pure ()
  else
    mThrow (.isa .BAD_INST "unknown mnemonic")

/-- `step()` normalises non-ISA exceptions into `UNKNOWN` ISA errors
before re-raising. -/
def normalizeErr : Err → Err
  | .isa c m => .isa c m
  | _ => .isa .UNKNOWN "normalised host exception"

/-- `Engine.step`: require RUNNING, move to STEPPING, parse the
instruction at PC, advance PC past its textual span, execute it, and
restore RUNNING if still STEPPING.  Errors are normalised and propagate;
mutations made before the failure point persist (Python exception
semantics). -/
def step : M Unit := fun st0 =>
  let body : M Unit := do
    let st ← mGet
    if st.state ≠ .RUNNING then
      mThrow (.isa .UNKNOWN "program is not running")
    else do
      mModify (fun st' => { st' with state := .STEPPING })
      let st ← mGet
      let pc := get_program_counter st.regs
      let inst ← mLift (parse_code_at st.mem pc)
      mModify (fun st' =>
        { st' with regs := set_program_counter st'.regs ((pc : Int) + (inst.len : Int)) })
      resolve_inst inst
      let st ← mGet
      if st.state = .STEPPING then mSet { st with state := .RUNNING } else pure ()
  match body st0 with
  | (s, .ok ()) => (s, .ok ())
  | (s, .error e) => (s, .error (normalizeErr e))

/-- `Engine.run` loop (no breakpoints are registered in the modelled
runs): step while RUNNING; when a step raises, `stop()` and leave the
loop.  Returns the final state together with the error, if any, that
ended the loop.  `fuel` bounds the iterations; the modelled programs
finish well within it. -/
def runLoop : Nat → EngSt → EngSt × Option Err
  | 0, st => (st, none)
  | fuel + 1, st =>
    match st.state with
    | .STOPPED => (st, none)
    | .RUNNING =>
      match step st with
      | (st', .ok ()) => runLoop fuel st'
      | (st', .error e) => ({ st' with state := .STOPPED }, some e)
    | .STEPPING => runLoop fuel st
    | .UNKNOWN => runLoop fuel st

/-- `Registers.__init__`: every register starts at 0. -/
def initRegFile : RegFile := ⟨0, 0, 0, 0, 0, 0, 0, 0, 0, 0, 0⟩

/-- The three fixed segments of `engine/const.py` SEGMENTS, as mapped in
`Engine.__init__` (code R|X, bss R|W, stack R|W); buffers start
zero-filled. -/
def codeSegment0 : Segment := ⟨bs "code", codeStart, codeSize, 5, fun _ => 0⟩

def bssSegment0 : Segment := ⟨bs "bss", bssStart, bssSize, 6, fun _ => 0⟩

def stackSegment0 : Segment := ⟨bs "stack", stackStart, stackSize, 6, fun _ => 0⟩

def bootSegments : MemoryManager := [codeSegment0, bssSegment0, stackSegment0]

/-- `Engine.__init__` followed by `Engine.init(program)`. -/
def bootEngine (program : Bytes) (vfiles : FileManager) : EngSt × Except Err Unit :=
  engineInit program ⟨initRegFile, bootSegments, vfiles, 0, .STOPPED⟩

/-- `Engine.run()` on a freshly constructed engine: `start()` then the
loop. -/
def runEngine (program : Bytes) (vfiles : FileManager) (fuel : Nat) : EngSt × Option Err :=
  match bootEngine program vfiles with
  | (st, .ok ()) => runLoop fuel { st with state := .RUNNING }
  | (st, .error e) => (st, some e)

/-! ## The spec's end-to-end programs S1 and S4 -/

/-- Scenario S1 (spec §8): arithmetic and stack. -/
def progS1 : Bytes :=
  bs "MOV R1, 5\nMOV R2, 7\nADD R1, R2\nPUSH R1\nPOP R3\nMOV R8, 2\nMOV R1, R3\nSYSCALL\n"

/-- Scenario S4 (spec §8): S3 with the unsigned compare `LTu`. -/
def progS4 : Bytes :=
  bs "MOV R1, 0xFFFFFFFF\nMOV R2, 1\nLTu R1, R2\nJZ +3\nMOV R8, 2\nMOV R1, 1\nSYSCALL\nMOV R8, 2\nMOV R1, 0\nSYSCALL\n"

/-! ## Claim theorems -/

/-- A concrete mapped segment (start 0x100, size 4, R|W) whose bytes are
all `0x41`; mapping it is legal (no overlap, valid permission). -/
def c1Segment : Segment := ⟨bs "data", 256, 4, 6, fun _ => 65⟩

def c1Mm : MemoryManager := [c1Segment]

/-- C1: evaluation at the failing input.  The segment holds `AAAA` from
the queried address to its end (no NUL anywhere, as the third conjunct
records), so by the claim `get_cstring` must return all four bytes
`[65,65,65,65]`; it returns only three.  `Segment.find` reports
not-found as `start - 1 = 255`, the `== -1` guard in `get_cstring` never
fires, and the slice `segment[256 : 255]` has Python stop index
`-1`, i.e. end-of-buffer minus one. -/
theorem c1_get_cstring_missing_last_byte :
    get_cstring c1Mm 256 = .ok [65, 65, 65] ∧
    Segment.readBytesRel c1Segment 0 4 = [65, 65, 65, 65] ∧
    (List.range 4).all (fun i => c1Segment.mem i != 0) = true := by
  refine ⟨by decide, by decide, by decide⟩

/-- C2: evaluation at the failing input.  The byte `0x42` does not occur
in `c1Segment` (the underlying Python `find` yields `-1`, first
conjunct), yet `Segment.find` returns `255 = start - 1`, not `-1`. -/
theorem c2_find_not_found_returns_start_minus_one :
    pyFind c1Segment.mem c1Segment.size [66] 0 none = -1 ∧
    c1Segment.find [66] (some 256) none = 255 ∧ ((255 : Int) = -1 → False) := by
  refine ⟨by decide, by decide, by decide⟩

/-- C5: evaluation at the failing input.  With an empty program the code
segment is all zeros, so no `\n` occurs between `pc = 0x4FFFFF` (the
last byte of the code segment) and the segment end; `Segment.find`
returns the not-found sentinel `0x3FFFFF = start - 1`, which the `== -1`
guard misses, and `parse_code_at` decodes the empty slice
`segment[0x4FFFFF : 0x3FFFFF]` as a NOP instead of raising BAD_INST. -/
theorem c5_parse_code_at_no_delimiter_decodes_nop :
    codeSegment0.find INST_DELIMITER (some 5242879) none = 4194303 ∧
    parse_code_at bootSegments 5242879 = .ok ⟨bs "NOP", [], 1⟩ := by
  refine ⟨by decide, by decide⟩

/-- C7: running the S1 program from the boot state stops the engine with
exit code 12 and no error: the EXIT syscall (R8 = 2) ran with R1 = 12
(5 + 7 pushed through the stack into R3 and moved to R1). -/
theorem c7_s1_exits_with_code_12 :
    (runEngine progS1 [] 20).1.exit_code = 12 ∧
    (runEngine progS1 [] 20).1.state = .STOPPED ∧
    (runEngine progS1 [] 20).2 = none := by
  refine ⟨by decide, by decide, by decide⟩

/-- C4 counterexample: running the S4 program does not exit through the
second EXIT syscall.  The run ends with a BAD_INST error ("unknown
mnemonic"), and R1 still holds `0xFFFFFFFF` — had the claimed second
EXIT syscall executed, R1 would be 0 and no error would be reported. -/
theorem c4_s4_counterexample :
    (runEngine progS4 [] 30).2 = some (Err.isa .BAD_INST "unknown mnemonic") ∧
    ((runEngine progS4 [] 30).1.regs.r1 = 0 → False) := by
  refine ⟨by decide, by decide⟩

/-- C4 amended: the unsigned compare `LTu 0xFFFFFFFF, 1` pushes 0 and
`JZ +3` does take the PC-relative jump — but `+3` is a byte offset, so
the new PC `0x400000 + 46 + 3 = 0x400031` points into the middle of the
line `MOV R8, 2`; decoding the tail `R8, 2` raises BAD_INST ("unknown
mnemonic"), the run loop stops the engine, and the engine's exit code
keeps its initial value 0.  No EXIT syscall runs (R1 is still
`0xFFFFFFFF`). -/
theorem c4_s4_amended :
    (runEngine progS4 [] 30).1.regs.pc = 4194353 ∧
    (runEngine progS4 [] 30).1.state = .STOPPED ∧
    (runEngine progS4 [] 30).1.exit_code = 0 ∧
    (runEngine progS4 [] 30).1.regs.r1 = 4294967295 ∧
    (runEngine progS4 [] 30).2 = some (Err.isa .BAD_INST "unknown mnemonic") := by
  refine ⟨by decide, by decide, by decide, by decide, by decide⟩

/-- C8: for every register state and value, the generic `get_reg` and
`set_reg` reject the name `PC` with BAD_INST — no register file results,
so no register (PC included) can change through them; PC moves only via
the program-counter-specific `get_program_counter` /
`set_program_counter`. -/
theorem c8_generic_reg_interface_rejects_pc (rf : RegFile) (v : Int) :
    get_reg rf PROGRAM_COUNTER_REG_NAME = .error (.isa .BAD_INST "invalid operand") ∧
    set_reg rf PROGRAM_COUNTER_REG_NAME v = .error (.isa .BAD_INST "invalid operand") := by
  constructor
  · unfold get_reg
    rw [if_pos (Or.inr rfl)]
  · unfold set_reg
    rw [if_pos (Or.inr rfl)]

/-! ### Claim C10: `Engine.eval` values and `jmp_to` -/

theorem to_u32_nonneg (i : Int) : 0 ≤ (to_u32 i : Int) := by positivity

theorem to_u32_lt (i : Int) : to_u32 i < 4294967296 := by
  unfold to_u32
  have h1 : 0 ≤ Int.emod i 4294967296 := Int.emod_nonneg i (by norm_num)
  have h2 : Int.emod i 4294967296 < 4294967296 := Int.emod_lt_of_pos i (by norm_num)
  omega

theorem exceptBind_ok {ε α β : Type} (a : α) (f : α → Except ε β) :
    (Except.ok a : Except ε α) >>= f = f a := rfl

theorem exceptBind_err {ε α β : Type} (e : ε) (f : α → Except ε β) :
    (Except.error e : Except ε α) >>= f = Except.error e := rfl

theorem mBind_eq {α β : Type} (m : M α) (f : α → M β) (s : EngSt) :
    (m >>= f) s =
      match m s with
      | (s', .ok a) => f a s'
      | (s', .error e) => (s', .error e) := rfl

theorem mPure_eq {α : Type} (a : α) (s : EngSt) : (pure a : M α) s = (s, .ok a) := rfl

theorem get_reg_error_eq {rf : RegFile} {name : Bytes} {e : Err}
    (h : get_reg rf name = .error e) : e = .isa .BAD_INST "invalid operand" := by
  unfold get_reg at h
  split at h
  · injection h with h'
    exact h'.symm
  · simp at h

theorem find_segment_by_addr_error_eq :
    ∀ (mm : MemoryManager) (a : Nat) {e : Err},
      find_segment_by_addr mm a = .error e →
      e = .isa .SEG_FAULT "cannot access memory address"
  | [], _, _, h => by
      unfold find_segment_by_addr at h
      injection h with h'
      exact h'.symm
  | s :: rest, a, e, h => by
      unfold find_segment_by_addr at h
      split at h
      · simp at h
      · exact find_segment_by_addr_error_eq rest a h

theorem getSlice_error_eq {s : Segment} {lo hi : Int} {e : Err}
    (h : s.getSlice lo hi = .error e) : e = .isa .SEG_FAULT "segment is not readable" := by
  unfold Segment.getSlice at h
  split at h
  · injection h with h'
    exact h'.symm
  · simp at h

theorem mmGetSlice_error_segfault {mm : MemoryManager} {lo : Nat} {hi : Int} {e : Err}
    (h : mmGetSlice mm lo hi = .error e) : ∃ msg, e = .isa .SEG_FAULT msg := by
  unfold mmGetSlice at h
  cases hf : find_segment_by_addr mm lo with
  | error e' =>
    rw [hf] at h
    simp only [exceptBind_err] at h
    injection h with h'
    exact ⟨"cannot access memory address", by rw [← h', find_segment_by_addr_error_eq mm lo hf]⟩
  | ok s =>
    rw [hf] at h
    simp only [exceptBind_ok] at h
    exact ⟨"segment is not readable", by rw [getSlice_error_eq h]⟩

theorem get32_error_segfault {mm : MemoryManager} {addr : Int} {e : Err}
    (h : get32 mm addr = .error e) : ∃ msg, e = .isa .SEG_FAULT msg := by
  unfold get32 at h
  cases hg : mmGetSlice mm (to_u32 addr) ((to_u32 addr : Int) + 4) with
  | error e' =>
    rw [hg] at h
    simp only [exceptBind_err] at h
    injection h with h'
    rw [← h']
    exact mmGetSlice_error_segfault hg
  | ok b =>
    rw [hg] at h
    simp only [exceptBind_ok] at h
    simp [pure, Except.pure] at h

theorem regEval_error_cases {rf : RegFile} {op : Operand} {e : Err}
    (h : regEval rf op = .error e) :
    e = .isa .BAD_INST "invalid operand" ∨ e = .pyValueError := by
  obtain ⟨ty, data⟩ := op
  cases ty with
  | REGISTER =>
    simp only [regEval] at h
    cases hg : get_reg rf data with
    | error e' =>
      rw [hg] at h
      simp only [exceptBind_err] at h
      injection h with h'
      rw [← h']
      exact Or.inl (get_reg_error_eq hg)
    | ok v =>
      rw [hg] at h
      simp only [exceptBind_ok] at h
      simp [pure, Except.pure] at h
  | ADDRESS =>
    simp only [regEval] at h
    cases hL : lastOpIdx data with
    | none =>
      rw [hL] at h
      simp only at h
      cases hg : get_reg rf (stripBytes data) with
      | error e' =>
        rw [hg] at h
        simp only [exceptBind_err] at h
        injection h with h'
        rw [← h']
        exact Or.inl (get_reg_error_eq hg)
      | ok v =>
        rw [hg] at h
        simp only [exceptBind_ok] at h
        simp [pure, Except.pure] at h
    | some i =>
      rw [hL] at h
      simp only at h
      cases hg : get_reg rf (stripBytes (data.take i)) with
      | error e' =>
        rw [hg] at h
        simp only [exceptBind_err] at h
        injection h with h'
        rw [← h']
        exact Or.inl (get_reg_error_eq hg)
      | ok v =>
        rw [hg] at h
        simp only [exceptBind_ok] at h
        cases hp : pyInt0 (data.drop (i + 1)) with
        | none =>
          rw [hp] at h
          simp only at h
          injection h with h'
          exact Or.inr h'.symm
        | some immVal =>
          rw [hp] at h
          simp only at h
          simp [pure, Except.pure] at h
  | IMMEDIATE =>
    simp only [regEval] at h
    cases hp : pyInt0 data with
    | none =>
      rw [hp] at h
      simp only at h
      injection h with h'
      exact Or.inr h'.symm
    | some v =>
      rw [hp] at h
      simp [pure, Except.pure] at h

theorem regEval_ok_false_nonneg {rf : RegFile} {op : Operand} {v : Int}
    (h : regEval rf op = .ok (v, false)) : 0 ≤ v := by
  obtain ⟨ty, data⟩ := op
  cases ty with
  | REGISTER =>
    simp only [regEval] at h
    cases hg : get_reg rf data with
    | error e' =>
      rw [hg] at h
      simp only [exceptBind_err] at h
      simp at h
    | ok w =>
      rw [hg] at h
      simp only [exceptBind_ok] at h
      simp [pure, Except.pure] at h
      rw [← h]
      positivity
  | ADDRESS =>
    simp only [regEval] at h
    cases hL : lastOpIdx data with
    | none =>
      rw [hL] at h
      simp only at h
      cases hg : get_reg rf (stripBytes data) with
      | error e' =>
        rw [hg] at h
        simp only [exceptBind_err] at h
        simp at h
      | ok w =>
        rw [hg] at h
        simp only [exceptBind_ok] at h
        simp [pure, Except.pure] at h
    | some i =>
      rw [hL] at h
      simp only at h
      cases hg : get_reg rf (stripBytes (data.take i)) with
      | error e' =>
        rw [hg] at h
        simp only [exceptBind_err] at h
        simp at h
      | ok w =>
        rw [hg] at h
        simp only [exceptBind_ok] at h
        cases hp : pyInt0 (data.drop (i + 1)) with
        | none =>
          rw [hp] at h
          simp at h
        | some immVal =>
          rw [hp] at h
          simp [pure, Except.pure] at h
  | IMMEDIATE =>
    simp only [regEval] at h
    cases hp : pyInt0 data with
    | none =>
      rw [hp] at h
      simp at h
    | some w =>
      rw [hp] at h
      simp only at h
      simp [pure, Except.pure] at h
      rw [← h]
      positivity

theorem engEval_ok_nonneg {op : Operand} {st st' : EngSt} {v : Int}
    (h : engEval op st = (st', .ok v)) : 0 ≤ v := by
  unfold engEval at h
  rw [mBind_eq] at h
  simp only [mGet] at h
  rw [mBind_eq] at h
  simp only [mLift] at h
  cases hr : regEval st.regs op with
  | error e =>
    rw [hr] at h
    simp at h
  | ok pair =>
    obtain ⟨opVal, deref⟩ := pair
    rw [hr] at h
    cases deref with
    | false =>
      simp only [Bool.false_eq_true, if_false, mPure_eq] at h
      injection h with h1 h2
      injection h2 with h3
      rw [← h3]
      exact regEval_ok_false_nonneg hr
    | true =>
      simp only [if_true] at h
      rw [mBind_eq] at h
      simp only [mLift] at h
      cases hg : get32 st.mem opVal with
      | error e =>
        rw [hg] at h
        simp at h
      | ok n =>
        rw [hg] at h
        simp only [mPure_eq] at h
        injection h with h1 h2
        injection h2 with h3
        rw [← h3]
        positivity

theorem engEval_error_cases {op : Operand} {st st' : EngSt} {e : Err}
    (h : engEval op st = (st', .error e)) :
    e = .isa .BAD_INST "invalid operand" ∨ e = .pyValueError ∨
      ∃ msg, e = .isa .SEG_FAULT msg := by
  unfold engEval at h
  rw [mBind_eq] at h
  simp only [mGet] at h
  rw [mBind_eq] at h
  simp only [mLift] at h
  cases hr : regEval st.regs op with
  | error e' =>
    rw [hr] at h
    simp only at h
    injection h with h1 h2
    injection h2 with h3
    rcases regEval_error_cases hr with hc | hc
    · exact Or.inl (h3 ▸ hc)
    · exact Or.inr (Or.inl (h3 ▸ hc))
  | ok pair =>
    obtain ⟨opVal, deref⟩ := pair
    rw [hr] at h
    cases deref with
    | false =>
      simp only [Bool.false_eq_true, if_false, mPure_eq] at h
      simp at h
    | true =>
      simp only [if_true] at h
      rw [mBind_eq] at h
      simp only [mLift] at h
      cases hg : get32 st.mem opVal with
      | error e' =>
        rw [hg] at h
        simp only at h
        injection h with h1 h2
        injection h2 with h3
        exact Or.inr (Or.inr (h3 ▸ get32_error_segfault hg))
      | ok n =>
        rw [hg] at h
        simp only [mPure_eq] at h
        simp at h

/-- C10: for every operand and engine state, a successful `Engine.eval`
is non-negative (immediates are masked to u32, registers hold stored
u32 values, dereferences read a u32 from memory), so `jmp_to` never
raises the BAD_INST "invalid PC" error reserved for a negative resulting
PC (any error it propagates comes from evaluation itself), and a
successful jump leaves PC reduced mod 2^32. -/
theorem c10_eval_nonneg_jmp_never_invalid_pc (op : Operand) (st : EngSt) :
    (∀ st' v, engEval op st = (st', .ok v) → 0 ≤ v) ∧
    (∀ st', jmp_to op st ≠ (st', .error (.isa .BAD_INST "invalid PC"))) ∧
    (∀ st', jmp_to op st = (st', .ok ()) → st'.regs.pc < 4294967296) := by
  refine ⟨fun _ _ h => engEval_ok_nonneg h, ?_, ?_⟩
  · intro st' heq
    unfold jmp_to at heq
    rw [mBind_eq] at heq
    cases he : engEval op st with
    | mk st1 ex =>
      rw [he] at heq
      cases ex with
      | error e =>
        simp only at heq
        injection heq with h1 h2
        injection h2 with h3
        rcases engEval_error_cases he with hc | hc | ⟨msg, hc⟩ <;> rw [hc] at h3
        · exact absurd h3 (by decide)
        · exact absurd h3 (by decide)
        · simp at h3
      | ok v =>
        simp only at heq
        rw [mBind_eq] at heq
        simp only [mGet] at heq
        have hv : 0 ≤ v := engEval_ok_nonneg he
        have hpc : 0 ≤ (get_program_counter st1.regs : Int) := Int.ofNat_nonneg _
        by_cases hrel : op.type = OperandType.IMMEDIATE ∧
            (List.head? op.data = some 43 ∨ List.head? op.data = some 45)
        · rw [if_pos hrel, if_neg (by omega :
            ¬ v + (get_program_counter st1.regs : Int) < 0)] at heq
          simp [mModify] at heq
        · rw [if_neg hrel, if_neg (by omega : ¬ v < 0)] at heq
          simp [mModify] at heq
  · intro st' heq
    unfold jmp_to at heq
    rw [mBind_eq] at heq
    cases he : engEval op st with
    | mk st1 ex =>
      rw [he] at heq
      cases ex with
      | error e => simp at heq
      | ok v =>
        simp only at heq
        rw [mBind_eq] at heq
        simp only [mGet] at heq
        have hv : 0 ≤ v := engEval_ok_nonneg he
        have hpc : 0 ≤ (get_program_counter st1.regs : Int) := Int.ofNat_nonneg _
        by_cases hrel : op.type = OperandType.IMMEDIATE ∧
            (List.head? op.data = some 43 ∨ List.head? op.data = some 45)
        · rw [if_pos hrel, if_neg (by omega :
            ¬ v + (get_program_counter st1.regs : Int) < 0)] at heq
          simp only [mModify] at heq
          injection heq with h1 h2
          rw [← h1]
          simp only [set_program_counter]
          exact to_u32_lt _
        · rw [if_neg hrel, if_neg (by omega : ¬ v < 0)] at heq
          simp only [mModify] at heq
          injection heq with h1 h2
          rw [← h1]
          simp only [set_program_counter]
          exact to_u32_lt _

def c10Op : Operand := ⟨.IMMEDIATE, bs "3"⟩

def c10St : EngSt := (bootEngine [] []).1

/-- C10 witness: a concrete evaluation (`3`, non-negative) and a
concrete jump whose resulting PC is reduced mod 2^32. -/
theorem c10_witness :
    (0 ≤ (3 : Int)) ∧ ((jmp_to c10Op c10St).1.regs.pc < 4294967296) :=
  ⟨(c10_eval_nonneg_jmp_never_invalid_pc c10Op c10St).1 c10St 3 rfl,
   (c10_eval_nonneg_jmp_never_invalid_pc c10Op c10St).2.2 (jmp_to c10Op c10St).1 rfl⟩

/-! ### Claim C6: bounds of successful memory accesses -/

/-- `a` lies inside some mapped segment. -/
abbrev ownedBy (mm : MemoryManager) (a : Nat) : Prop :=
  ∃ s ∈ mm, s.start ≤ a ∧ a < s.endAddr

/-- The whole 4-byte range `[a, a+4)` lies inside some mapped segment. -/
abbrev owned4 (mm : MemoryManager) (a : Nat) : Prop :=
  ∃ s ∈ mm, s.start ≤ a ∧ a + 4 ≤ s.endAddr

/-- The mutated segment has the same identity and layout and agrees with
the original on every index at or beyond its size: the write touched
only bytes inside the buffer. -/
def writesInside (s s2 : Segment) : Prop :=
  s2.name = s.name ∧ s2.start = s.start ∧ s2.size = s.size ∧ s2.perm = s.perm ∧
    ∀ i, s.size ≤ i → s2.mem i = s.mem i

def memWritesInside (mm mm2 : MemoryManager) : Prop :=
  List.Forall₂ writesInside mm mm2

theorem pySliceIdx_le (size : Nat) (i : Int) : pySliceIdx size i ≤ size := by
  unfold pySliceIdx
  split <;> omega

theorem pySliceIdx_of_nonneg {size : Nat} {i : Int} (h : 0 ≤ i) :
    pySliceIdx size i = min i.toNat size := by
  unfold pySliceIdx
  rw [if_neg (by omega)]

theorem find_segment_by_addr_ok :
    ∀ (mm : MemoryManager) (a : Nat) {s : Segment},
      find_segment_by_addr mm a = .ok s → s ∈ mm ∧ s.start ≤ a ∧ a < s.endAddr
  | [], _, _, h => by simp [find_segment_by_addr] at h
  | t :: rest, a, s, h => by
      unfold find_segment_by_addr at h
      split at h
      · rename_i hcond
        injection h with h'
        rw [← h']
        exact ⟨List.mem_cons_self t rest, hcond⟩
      · obtain ⟨hm, hb⟩ := find_segment_by_addr_ok rest a h
        exact ⟨List.mem_cons_of_mem t hm, hb⟩

theorem updateSegmentAt_ok :
    ∀ (mm : MemoryManager) (a : Nat) (f : Segment → Except Err Segment)
      {mm2 : MemoryManager},
      updateSegmentAt mm a f = .ok mm2 →
      ∃ s, s ∈ mm ∧ (s.start ≤ a ∧ a < s.endAddr) ∧ ∃ s2, f s = .ok s2
  | [], _, _, _, h => by simp [updateSegmentAt] at h
  | t :: rest, a, f, mm2, h => by
      unfold updateSegmentAt at h
      split at h
      · rename_i hcond
        cases hf : f t with
        | error e =>
          rw [hf] at h
          simp only [exceptBind_err] at h
          simp at h
        | ok s2 => exact ⟨t, List.mem_cons_self t rest, hcond, s2, hf⟩
      · cases hr : updateSegmentAt rest a f with
        | error e =>
          rw [hr] at h
          simp only [exceptBind_err] at h
          simp at h
        | ok rest2 =>
          obtain ⟨s, hm, hb, s2, hf⟩ := updateSegmentAt_ok rest a f hr
          exact ⟨s, List.mem_cons_of_mem t hm, hb, s2, hf⟩

theorem updateSegmentAt_writesInside :
    ∀ (mm : MemoryManager) (a : Nat) (f : Segment → Except Err Segment)
      {mm2 : MemoryManager},
      (∀ s s2, f s = .ok s2 → writesInside s s2) →
      updateSegmentAt mm a f = .ok mm2 → memWritesInside mm mm2
  | [], _, _, _, _, h => by simp [updateSegmentAt] at h
  | t :: rest, a, f, mm2, hf, h => by
      unfold updateSegmentAt at h
      split at h
      · cases hft : f t with
        | error e =>
          rw [hft] at h
          simp only [exceptBind_err] at h
          simp at h
        | ok s2 =>
          rw [hft] at h
          simp only [exceptBind_ok] at h
          simp only [pure, Except.pure] at h
          injection h with h'
          rw [← h']
          exact List.Forall₂.cons (hf t s2 hft)
            (List.forall₂_same.mpr (fun x _ => ⟨rfl, rfl, rfl, rfl, fun i _ => rfl⟩))
      · cases hr : updateSegmentAt rest a f with
        | error e =>
          rw [hr] at h
          simp only [exceptBind_err] at h
          simp at h
        | ok rest2 =>
          rw [hr] at h
          simp only [exceptBind_ok] at h
          simp only [pure, Except.pure] at h
          injection h with h'
          rw [← h']
          exact List.Forall₂.cons
            ⟨rfl, rfl, rfl, rfl, fun i _ => rfl⟩
            (updateSegmentAt_writesInside rest a f hf hr)

def isOkE {ε α : Type} : Except ε α → Bool
  | .ok _ => true
  | .error _ => false

theorem setByte_writesInside {s : Segment} {key : Int} {v : Nat} {s2 : Segment}
    (h : s.setByte key v = .ok s2) : writesInside s s2 := by
  unfold Segment.setByte at h
  split at h
  · simp at h
  · split at h
    · rename_i hcond
      injection h with h'
      rw [← h']
      refine ⟨rfl, rfl, rfl, rfl, fun i hi => ?_⟩
      simp only
      rw [if_neg (by omega)]
    · split at h
      · rename_i hcond2
        injection h with h'
        rw [← h']
        refine ⟨rfl, rfl, rfl, rfl, fun i hi => ?_⟩
        simp only
        rw [if_neg (by omega)]
      · simp at h

theorem setSlice_writesInside {s : Segment} {lo hi : Int} {v : Bytes} {s2 : Segment}
    (h : s.setSlice lo hi v = .ok s2) : writesInside s s2 := by
  unfold Segment.setSlice at h
  split at h
  · simp at h
  · split at h
    · injection h with h'
      rw [← h']
      refine ⟨rfl, rfl, rfl, rfl, fun i hi2 => ?_⟩
      have hle := pySliceIdx_le s.size (hi - s.start)
      simp only
      rw [if_neg (by omega)]
    · simp at h

theorem uint32_to_bytes_length {w : Int} {v : Bytes}
    (h : uint32_to_bytes w = .ok v) : v.length = 4 := by
  unfold uint32_to_bytes at h
  split at h
  · injection h with h'
    rw [← h']
    rfl
  · simp at h

theorem setSlice_ok_bound4 {s : Segment} {a : Nat} {v : Bytes} {s2 : Segment}
    (hlen : v.length = 4) (hs : s.start ≤ a) (hlt : a < s.endAddr)
    (h : s.setSlice (a : Int) ((a : Int) + 4) v = .ok s2) :
    a + 4 ≤ s.endAddr := by
  unfold Segment.setSlice at h
  split at h
  · simp at h
  · split at h
    · rename_i hcond
      have e1 : pySliceIdx s.size ((a : Int) - s.start) =
          min ((a : Int) - s.start).toNat s.size := pySliceIdx_of_nonneg (by omega)
      have e2 : pySliceIdx s.size ((a : Int) + 4 - s.start) =
          min ((a : Int) + 4 - s.start).toNat s.size := pySliceIdx_of_nonneg (by
            unfold Segment.endAddr at hlt
            omega)
      rw [e1, e2, hlen] at hcond
      unfold Segment.endAddr at hlt ⊢
      omega
    · simp at h

theorem mmGetSlice_ok_owned {mm : MemoryManager} {lo : Nat} {hi : Int}
    (h : isOkE (mmGetSlice mm lo hi) = true) : ownedBy mm lo := by
  unfold mmGetSlice at h
  cases hf : find_segment_by_addr mm lo with
  | error e =>
    rw [hf] at h
    simp only [exceptBind_err] at h
    simp [isOkE] at h
  | ok s =>
    obtain ⟨hm, hb⟩ := find_segment_by_addr_ok mm lo hf
    exact ⟨s, hm, hb⟩

/-- C6 amended: every successful access touches only bytes inside the
owning segment.  Single-byte reads/writes and slice reads dispatch on an
owned address; every successful write leaves all bytes at or beyond the
owning buffer's size untouched (`memWritesInside`): the touched bytes
all lie inside `[start, end)`.  A successful `set32` moreover requires
the whole range `[a, a+4)` inside the owning segment.  A successful
`get32`, however, only requires the address `a` itself to be owned: the
slice read clamps at the segment end (see the counterexample), so the
claim's "in particular" clause holds for 32-bit writes but not for
32-bit reads. -/
theorem c6_successful_accesses_stay_in_segment
    (mm mm2 mm3 mm4 : MemoryManager) (a b : Nat) (ai w hi : Int) (v : Bytes) :
    (isOkE (mmGetByte mm a) = true → ownedBy mm a) ∧
    (isOkE (mmGetSlice mm a hi) = true → ownedBy mm a) ∧
    (isOkE (get32 mm ai) = true → ownedBy mm (to_u32 ai)) ∧
    (mmSetByte mm a b = .ok mm2 → ownedBy mm a ∧ memWritesInside mm mm2) ∧
    (mmSetSlice mm a hi v = .ok mm3 → ownedBy mm a ∧ memWritesInside mm mm3) ∧
    (set32 mm ai w = .ok mm4 → owned4 mm (to_u32 ai) ∧ memWritesInside mm mm4) := by
  refine ⟨?_, mmGetSlice_ok_owned, ?_, ?_, ?_, ?_⟩
  · intro h
    unfold mmGetByte at h
    cases hf : find_segment_by_addr mm a with
    | error e =>
      rw [hf] at h
      simp only [exceptBind_err] at h
      simp [isOkE] at h
    | ok s =>
      obtain ⟨hm, hb⟩ := find_segment_by_addr_ok mm a hf
      exact ⟨s, hm, hb⟩
  · intro h
    unfold get32 at h
    cases hg : mmGetSlice mm (to_u32 ai) ((to_u32 ai : Int) + 4) with
    | error e =>
      rw [hg] at h
      simp only [exceptBind_err] at h
      simp [isOkE] at h
    | ok bv =>
      exact mmGetSlice_ok_owned (by rw [hg]; rfl)
  · intro h
    unfold mmSetByte at h
    obtain ⟨s, hm, hb, s2, hf⟩ := updateSegmentAt_ok mm a _ h
    exact ⟨⟨s, hm, hb⟩,
      updateSegmentAt_writesInside mm a _ (fun t t2 ht => setByte_writesInside ht) h⟩
  · intro h
    unfold mmSetSlice at h
    obtain ⟨s, hm, hb, s2, hf⟩ := updateSegmentAt_ok mm a _ h
    exact ⟨⟨s, hm, hb⟩,
      updateSegmentAt_writesInside mm a _ (fun t t2 ht => setSlice_writesInside ht) h⟩
  · intro h
    unfold set32 at h
    cases hub : uint32_to_bytes w with
    | error e =>
      rw [hub] at h
      simp only [exceptBind_err] at h
      simp at h
    | ok bv =>
      rw [hub] at h
      simp only [exceptBind_ok] at h
      unfold mmSetSlice at h
      obtain ⟨s, hm, hb, s2, hf⟩ := updateSegmentAt_ok mm (to_u32 ai) _ h
      refine ⟨⟨s, hm, hb.1, ?_⟩,
        updateSegmentAt_writesInside mm (to_u32 ai) _
          (fun t t2 ht => setSlice_writesInside ht) h⟩
      exact setSlice_ok_bound4 (uint32_to_bytes_length hub) hb.1 hb.2 hf

/-- C6 counterexample: on the boot memory, `get32` at `0x50FFFD`
(three bytes before the end of the bss segment) succeeds — the slice
read clamps at the segment end and decodes the remaining three bytes —
even though the range `[a, a+4)` does not lie inside any mapped
segment.  This refutes "a 32-bit access at address a succeeds only if
the whole range [a, a+4) lies inside the segment that owns a". -/
theorem c6_get32_clamps_counterexample :
    isOkE (get32 bootSegments ((5308413 : Nat) : Int)) = true ∧
    get32 bootSegments ((5308413 : Nat) : Int) = .ok 0 ∧
    ¬ owned4 bootSegments (to_u32 ((5308413 : Nat) : Int)) := by
  refine ⟨by decide, by decide, by decide⟩

def c6Mm2 : MemoryManager :=
  match mmSetByte bootSegments 5242880 7 with
  | .ok m => m
  | .error _ => []

def c6Mm3 : MemoryManager :=
  match mmSetSlice bootSegments 5242880 ((5242882 : Nat) : Int) [1, 2] with
  | .ok m => m
  | .error _ => []

def c6Mm4 : MemoryManager :=
  match set32 bootSegments ((5242880 : Nat) : Int) 99 with
  | .ok m => m
  | .error _ => []

/-- C6 witness: concrete successful accesses at the base of the bss
segment. -/
theorem c6_witness :
    ownedBy bootSegments 5242880 ∧
    ownedBy bootSegments (to_u32 ((5242880 : Nat) : Int)) ∧
    memWritesInside bootSegments c6Mm2 ∧
    memWritesInside bootSegments c6Mm3 ∧
    (owned4 bootSegments (to_u32 ((5242880 : Nat) : Int)) ∧
      memWritesInside bootSegments c6Mm4) := by
  have T := c6_successful_accesses_stay_in_segment bootSegments c6Mm2 c6Mm3 c6Mm4
    5242880 7 ((5242880 : Nat) : Int) 99 ((5242882 : Nat) : Int) [1, 2]
  exact ⟨T.1 (by decide), T.2.2.1 (by decide),
    (T.2.2.2.1 rfl).2, (T.2.2.2.2.1 rfl).2, T.2.2.2.2.2 rfl⟩

/-! ### Claim C9: the EXEC syscall and the registers -/

theorem set_reg_fp_eq (rf : RegFile) (v : Int) :
    set_reg rf BASE_POINTER_REG_NAME v = .ok { rf with fp := to_u32 v } := rfl

theorem set_reg_sp_eq (rf : RegFile) (v : Int) :
    set_reg rf STACK_POINTER_REG_NAME v = .ok { rf with sp := to_u32 v } := rfl

theorem set_reg_r8_eq (rf : RegFile) (v : Int) :
    set_reg rf (bs "R8") v = .ok { rf with r8 := to_u32 v } := rfl

theorem engineInit_eq {st : EngSt} {program : Bytes} {mem2 : MemoryManager}
    (hw : writeSegRawByName st.mem (bs "code") program = .ok mem2) :
    engineInit program st =
      (⟨{ st.regs with fp := 4294967280, sp := 4294967280, pc := 4194304 },
        mem2, st.files, st.exit_code, st.state⟩,
       .ok ()) := by
  unfold engineInit
  rw [mBind_eq]
  simp only [mGet]
  rw [mBind_eq]
  simp only [mLift]
  rw [hw]
  simp only
  rw [mBind_eq]
  simp only [mSet]
  rw [mBind_eq]
  simp only [mGet]
  rw [mBind_eq]
  simp only [mLift, set_reg_fp_eq]
  rw [mBind_eq]
  simp only [mLift, set_reg_sp_eq]
  simp only [mSet, set_program_counter]
  rfl

/-- C9: executing `SYSCALL` with R8 = 5 (EXEC) and R1 pointing at the
name of an existing file re-initialises the engine — the new program is
copied into the code segment, PC is reset to the code start
(0x400000), SP and FP to stack top − 0x10 (0xFFFFFFF0) — but the
general registers R1..R7 are not cleared (the resulting register file
differs from the original only in FP, SP, PC and R8), and because EXEC
returns −1, which the SYSCALL case writes back through `set_reg`,
R8 ends up 0xFFFFFFFF. -/
theorem c9_exec_keeps_general_registers
    (st : EngSt) (ops : List Operand) (n : Nat) (name content : Bytes)
    (mem2 : MemoryManager)
    (h8 : st.regs.r8 = 5)
    (hname : get_cstring st.mem st.regs.r1 = .ok name)
    (hfile : fmLookup st.files name = some content)
    (hw : writeSegRawByName st.mem (bs "code") content = .ok mem2) :
    resolve_inst ⟨bs "SYSCALL", ops, n⟩ st =
      (⟨{ st.regs with
          fp := 4294967280, sp := 4294967280, pc := 4194304, r8 := 4294967295 },
        mem2, st.files, st.exit_code, st.state⟩, .ok ()) := by
  have h0 : resolve_inst ⟨bs "SYSCALL", ops, n⟩ st =
      (do
        let st0 ← mGet
        let retValue ← syscall st0.regs.r8 st0.regs.r1 st0.regs.r2 st0.regs.r3
        let st1 ← mGet
        let regs' ← mLift (set_reg st1.regs (bs "R8") retValue)
        mSet { st1 with regs := regs' } : M Unit) st := rfl
  rw [h0, mBind_eq]
  simp only [mGet]
  rw [h8, mBind_eq]
  have hs : syscall 5 st.regs.r1 st.regs.r2 st.regs.r3 st =
      (⟨{ st.regs with fp := 4294967280, sp := 4294967280, pc := 4194304 },
        mem2, st.files, st.exit_code, st.state⟩, .ok (-1)) := by
    have hs0 : syscall 5 st.regs.r1 st.regs.r2 st.regs.r3 =
        (do
          let st2 ← mGet
          let command ← mLift (get_cstring st2.mem st.regs.r1)
          match fmLookup st2.files command with
          | some content2 => do
              engineInit content2
              pure (-1)
          | none => pure (-1) : M Int) := rfl
    rw [hs0, mBind_eq]
    simp only [mGet]
    rw [mBind_eq]
    simp only [mLift]
    rw [hname]
    simp only
    rw [hfile]
    simp only
    rw [mBind_eq]
    rw [engineInit_eq hw]
    simp only [mPure_eq]
  rw [hs]
  simp only
  rw [mBind_eq]
  simp only [mGet]
  rw [mBind_eq]
  simp only [mLift, set_reg_r8_eq]
  simp only [mSet]
  rfl

def c9Content : Bytes := bs "NOP\n"

/-- Boot with the program text "flag.txt" in the code segment (so the
C-string at `0x400000` is the file name), one virtual file, then R8 set
to 5 (EXEC) and R1 to `0x400000`. -/
def c9St : EngSt :=
  let st0 := (bootEngine (bs "flag.txt") [(bs "flag.txt", c9Content)]).1
  ⟨{ st0.regs with r8 := 5, r1 := 4194304 },
   st0.mem, st0.files, st0.exit_code, st0.state⟩

def c9Mem2 : MemoryManager :=
  match writeSegRawByName c9St.mem (bs "code") c9Content with
  | .ok m => m
  | .error _ => []

/-- C9 witness: the concrete EXEC syscall on `c9St`. -/
theorem c9_witness :
    resolve_inst ⟨bs "SYSCALL", [], 8⟩ c9St =
      (⟨{ c9St.regs with
          fp := 4294967280, sp := 4294967280, pc := 4194304, r8 := 4294967295 },
        c9Mem2, c9St.files, c9St.exit_code, c9St.state⟩, .ok ()) :=
  c9_exec_keeps_general_registers c9St [] 8 (bs "flag.txt") c9Content c9Mem2
    rfl rfl rfl rfl
